import Mathlib

/-!
# Verification of the remote-command server core

A shallow embedding of the bn3monkey/remote-command server (C++ sources under
`src/server` and `src/protocol`) together with theorems settling the frozen
claims about it.  Wire bytes are natural numbers, machine integers are `Int`
with explicit two's-complement reading where the code reads raw bytes, and the
filesystem that `std::filesystem` manipulates is modelled as an association
list from absolute component paths to entries (directories and regular files;
symlinks and `..` components are outside the model).  The dispatcher, the
filesystem instruction handlers, the process supervisor and the pipe-reader
threads are translated from the source files named in the doc comments.
-/

namespace RemoteCommand

/-- A byte on the wire, as a natural number (0..255 where it matters). -/
abbrev Byte := Nat

/-! ## Protocol constants (`src/protocol/remote_command_protocol.hpp`) -/

/-- The 4-byte magic `"RMT_"` that prefixes every frame. -/
def REMOTE_COMMAND_MAGIC : List Byte := [0x52, 0x4D, 0x54, 0x5F]

/-- `RemoteCommandInstruction` values (`remote_command_protocol.hpp`). -/
def INSTRUCTION_EMPTY : Nat := 0x0000

def INSTRUCTION_CURRENT_WORKING_DIRECTORY : Nat := 0x10001000

def INSTRUCTION_MOVE_CURRENT_WORKING_DIRECTORY : Nat := 0x10001001

def INSTRUCTION_DIRECTORY_EXISTS : Nat := 0x10001002

def INSTRUCTION_LIST_DIRECTORY_CONTENTS : Nat := 0x10001003

def INSTRUCTION_CREATE_DIRECTORY : Nat := 0x10001004

def INSTRUCTION_REMOVE_DIRECTORY : Nat := 0x10001005

def INSTRUCTION_COPY_DIRECTORY : Nat := 0x10001006

def INSTRUCTION_MOVE_DIRECTORY : Nat := 0x10001007

def INSTRUCTION_RUN_COMMAND : Nat := 0x10002000

def INSTRUCTION_OPEN_PROCESS : Nat := 0x10002001

def INSTRUCTION_CLOSE_PROCESS : Nat := 0x10002002

def INSTRUCTION_UPLOAD_FILE : Nat := 0x10003000

def INSTRUCTION_DOWNLOAD_FILE : Nat := 0x10003001

/-- `RemoteCommandStreamType::STREAM_OUTPUT`. -/
def STREAM_OUTPUT : Nat := 0x3000

/-- `RemoteCommandStreamType::STREAM_ERROR`. -/
def STREAM_ERROR : Nat := 0x4000

/-- `RemoteDirectoryContentTypeInner::FILE`. -/
def CONTENT_TYPE_FILE : Nat := 0x1000

/-- `RemoteDirectoryContentTypeInner::DIRECTORY`. -/
def CONTENT_TYPE_DIRECTORY : Nat := 0x2000

/-- A fully received request frame: the header fields of
`RemoteCommandRequestHeader` together with the four payloads.  The four
`payload_i_length` header fields are the lengths of the four lists (a frame
whose payload cannot be received in full makes `recvAll` fail, which ends the
session before dispatch and is modelled by the end of the input frame list). -/
structure RequestFrame where
  magic : List Byte
  instruction : Nat
  p0 : List Byte
  p1 : List Byte
  p2 : List Byte
  p3 : List Byte
deriving DecidableEq

/-- `RemoteCommandRequestHeader::valid()`: `strncmp` of the magic field
against `"RMT_"`. -/
def RequestFrame.valid (f : RequestFrame) : Bool :=
  decide (f.magic = REMOTE_COMMAND_MAGIC)

/-- `RemoteCommandResponseHeader` (16 bytes on the wire). -/
structure ResponseHeader where
  magic : List Byte
  instruction : Nat
  payload_length : Nat
  padding : Nat
deriving DecidableEq

/-- The `RemoteCommandResponseHeader` constructor: magic `"RMT_"`, zero
padding. -/
def mkResponseHeader (instruction : Nat) (payload_length : Nat) : ResponseHeader :=
  { magic := REMOTE_COMMAND_MAGIC
    instruction := instruction
    payload_length := payload_length
    padding := 0 }

/-- One response frame as sent by `sendAll(header); sendAll(payload)`. -/
structure Response where
  header : ResponseHeader
  payload : List Byte
deriving DecidableEq

/-- `RemoteCommandStreamHeader` together with its payload, as emitted by
`sendStream`. -/
structure StreamFrame where
  magic : List Byte
  type : Nat
  payload_length : Nat
  payload : List Byte
deriving DecidableEq

/-! ## Paths

`std::filesystem::path` on POSIX, restricted to the fragment the server
exercises: an absolute flag plus the list of non-empty components.  A `"."`
component (the byte list `[46]`) is kept by parsing and rendering, exactly as
`fs::path` keeps it, and is dropped only by `normalize` (the model of what
`stat`-based queries resolve). -/

/-- A filesystem path: absolute flag plus components (each a byte string). -/
structure FsPath where
  absolute : Bool
  comps : List (List Byte)
deriving DecidableEq

/-- Split a byte string on `'/'` (47), keeping empty pieces. -/
def splitOnSlash : List Byte → List (List Byte)
  | [] => [[]]
  | b :: rest =>
    let r := splitOnSlash rest
    if b = 47 then [] :: r
    else
      match r with
      | [] => [[b]]
      | c :: cs => (b :: c) :: cs

/-- Model of `fs::path(std::string(bytes))` on POSIX: absolute iff the string
starts with `'/'`; components are the non-empty pieces between slashes. -/
def parsePath (bs : List Byte) : FsPath :=
  { absolute := decide (bs.head? = some 47)
    comps := (splitOnSlash bs).filter (fun c => decide (c ≠ [])) }

/-- Join components with `'/'`. -/
def renderComps : List (List Byte) → List Byte
  | [] => []
  | [c] => c
  | c :: rest => c ++ 47 :: renderComps rest

/-- Model of `fs::path::string()` on POSIX for the paths the server builds. -/
def FsPath.render (p : FsPath) : List Byte :=
  (if p.absolute then [47] else []) ++ renderComps p.comps

/-- `resolvePath` (`remote_command_server_command.cpp` lines 29–33): a request
path is taken as-is when absolute, otherwise appended to the session cwd with
`operator/`. -/
def resolvePath (cwd : FsPath) (p : FsPath) : FsPath :=
  if p.absolute then p else { absolute := cwd.absolute, comps := cwd.comps ++ p.comps }

/-- Path resolution as the OS performs it for `stat`-like queries on the
model's symlink-free, `..`-free paths: `"."` components disappear. -/
def FsPath.normalize (p : FsPath) : FsPath :=
  { absolute := p.absolute, comps := p.comps.filter (fun c => decide (c ≠ [46])) }

/-! ## The filesystem model

`std::filesystem` operates on an external filesystem; the model is an
association list from absolute component lists to entries.  The root directory
exists implicitly (the empty key is never stored). -/

/-- A filesystem entry: a directory or a regular file with its contents. -/
inductive FsEntry where
  | dir : FsEntry
  | file : List Byte → FsEntry
deriving DecidableEq

/-- An absolute path key: the normalized component list. -/
abbrev FsKey := List (List Byte)

/-- The modelled filesystem. -/
abbrev FileSystem := List (FsKey × FsEntry)

def fsLookup : FileSystem → FsKey → Option FsEntry
  | [], _ => none
  | (k, e) :: rest, key => if k = key then some e else fsLookup rest key

def fsErase : FileSystem → FsKey → FileSystem
  | [], _ => []
  | (k, e) :: rest, key =>
    if k = key then fsErase rest key else (k, e) :: fsErase rest key

def fsInsert (fs : FileSystem) (key : FsKey) (e : FsEntry) : FileSystem :=
  (key, e) :: fsErase fs key

/-- `underKey anc k` is true iff `anc` is a prefix of `k`: the entry at `k`
lives in the subtree rooted at `anc`. -/
def underKey : FsKey → FsKey → Bool
  | [], _ => true
  | _ :: _, [] => false
  | a :: ra, b :: rb => if a = b then underKey ra rb else false

/-- Model of `std::filesystem::remove_all(p, ec)`: removes the entry and its
whole subtree, returning how many entries were deleted (0 when nothing
exists at `p`). -/
def removeAll (fs : FileSystem) (key : FsKey) : Nat × FileSystem :=
  ((fs.filter (fun kv => underKey key kv.1)).length,
   fs.filter (fun kv => !underKey key kv.1))

/-- Recursive worker for `createDirectories`: walk the remaining components,
creating each missing directory.  Returns the filesystem, whether any
directory was created, and whether an error occurred (a prefix names a
regular file). -/
def createDirsFrom (fs : FileSystem) (acc : FsKey) : List (List Byte) → FileSystem × Bool × Bool
  | [] => (fs, false, false)
  | c :: rest =>
    let k := acc ++ [c]
    match fsLookup fs k with
    | some .dir => createDirsFrom fs k rest
    | some (.file _) => (fs, false, true)
    | none =>
      let r := createDirsFrom (fsInsert fs k .dir) k rest
      (r.1, true, r.2.2)

/-- Model of `std::filesystem::create_directories(p, ec)`: true iff at least
one directory was created and no error occurred. -/
def createDirectories (fs : FileSystem) (key : FsKey) : FileSystem × Bool :=
  let r := createDirsFrom fs [] key
  (r.1, r.2.1 && !r.2.2)

/-- `fs::exists(target, ec) && fs::is_directory(target, ec)` on the model. -/
def existsAsDirectory (fs : FileSystem) (p : FsPath) : Bool :=
  match fsLookup fs p.normalize.comps with
  | some .dir => true
  | _ => false

/-- Model of `std::ofstream(target, binary).is_open()`: the parent directory
must exist (the root exists implicitly) and the target must not be a
directory. -/
def canOpenForWrite (fs : FileSystem) (key : FsKey) : Bool :=
  match key with
  | [] => false
  | _ =>
    (match key.dropLast with
     | [] => true
     | parent =>
       match fsLookup fs parent with
       | some .dir => true
       | _ => false)
    &&
    (match fsLookup fs key with
     | some .dir => false
     | _ => true)

/-- Model of `std::ifstream(target, binary)`: opening succeeds exactly on a
regular file, yielding its bytes. -/
def openForRead (fs : FileSystem) (key : FsKey) : Option (List Byte) :=
  match fsLookup fs key with
  | some (.file data) => some data
  | _ => none

/-! ## Little-endian 32-bit integers on the wire -/

/-- 32-bit little-endian unsigned read of the first four bytes. -/
def leU32 : List Byte → Nat
  | b0 :: b1 :: b2 :: b3 :: _ => b0 + 256 * b1 + 65536 * b2 + 16777216 * b3
  | _ => 0

/-- 32-bit little-endian signed (two's complement) read, as in
`memcpy(&proc_id, p0.data(), sizeof(int32_t))`. -/
def leI32 (bs : List Byte) : Int :=
  let v := leU32 bs
  if v < 2147483648 then (v : Int) else (v : Int) - 4294967296

/-- 32-bit little-endian encoding of a signed value (two's complement). -/
def encodeI32 (i : Int) : List Byte :=
  let v := (i % 4294967296).toNat
  [v % 256, v / 256 % 256, v / 65536 % 256, v / 16777216 % 256]

/-- 32-bit little-endian encoding of an unsigned value. -/
def encodeU32 (n : Nat) : List Byte :=
  [n % 256, n / 256 % 256, n / 65536 % 256, n / 16777216 % 256]

/-! ## Process supervisor (`remote_command_server_process.cpp`)

`RemoteProcess` keeps `_current_process_id` (`-1` idle, `1` live), the OS
child (modelled by a count of spawned, not-yet-reaped children, matching
`_pid != -1` / `_hProcess != INVALID_HANDLE_VALUE`), and two reader threads
(modelled by a joinable flag: `joinReaders` joins whatever is joinable). -/

/-- The supervisor state visible to the claims. -/
structure ProcState where
  current_process_id : Int
  /-- Number of live (spawned and not yet reaped) child processes. -/
  children : Nat
  /-- Whether the two pipe-reader threads are live (joinable). -/
  readers : Bool
deriving DecidableEq

/-- The initial supervisor state: idle, no child, no reader threads. -/
def ProcState.init : ProcState :=
  { current_process_id := -1, children := 0, readers := false }

/-- `RemoteProcess::is_running()`: `_current_process_id != -1`. -/
def ProcState.is_running (s : ProcState) : Bool :=
  decide (s.current_process_id ≠ -1)

/-- `RemoteProcess::execute` (lines 139–271).  Rejects with `-1` when a
process is already live.  Otherwise pipes are created and the child spawned;
`spawnOk` abstracts the OS outcome (`pipe`/`fork`/`CreateProcessA` failure
paths return `-1` with every created pipe closed again and no child).  On
success the two reader threads start, `_current_process_id` becomes `1`, and
`1` is returned. -/
def procExecute (spawnOk : Bool) (s : ProcState) : Int × ProcState :=
  if s.current_process_id ≠ -1 then (-1, s)
  else if spawnOk then
    (1, { current_process_id := 1, children := s.children + 1, readers := true })
  else (-1, s)

/-- `RemoteProcess::await` (lines 277–282): `joinReaders()` (both reader
threads exit on pipe EOF and are joined), then `reapProcess()` (`waitpid` /
`WaitForSingleObject` when a child handle is held, then
`_current_process_id = -1`). -/
def procAwait (s : ProcState) : ProcState :=
  { current_process_id := -1, children := s.children - 1, readers := false }

/-- `RemoteProcess::close` (lines 288–316): kill the process group, close the
pipes, `joinReaders()`, then `reapProcess()` which sets
`_current_process_id = -1`. -/
def procClose (s : ProcState) : ProcState :=
  { current_process_id := -1, children := s.children - 1, readers := false }

/-- The supervisor operations invoked by the command server. -/
inductive ProcOp where
  | execute (spawnOk : Bool)
  | await
  | close
deriving DecidableEq

/-- One supervisor API call. -/
def procStep (s : ProcState) : ProcOp → ProcState
  | .execute ok => (procExecute ok s).2
  | .await => procAwait s
  | .close => procClose s

/-- A sequence of supervisor API calls. -/
def procRun (s : ProcState) (ops : List ProcOp) : ProcState :=
  ops.foldl procStep s

/-- The supervisor invariant: idle with no child and no reader threads, or
live with exactly one child and both reader threads running. -/
def ProcInv (s : ProcState) : Prop :=
  (s.current_process_id = -1 ∧ s.children = 0 ∧ s.readers = false) ∨
  (s.current_process_id = 1 ∧ s.children = 1 ∧ s.readers = true)

/-! ## Stream sending and the reader threads
(`remote_command_server_socket.cpp`, `remote_command_server_process.cpp`) -/

/-- `sendStream` (`remote_command_server_socket.cpp` lines 46–55): a zero
length sends nothing; otherwise one `RemoteCommandStreamHeader(type, len)`
followed by the payload bytes. -/
def sendStream (type : Nat) (data : List Byte) : List StreamFrame :=
  if data.length = 0 then []
  else
    [{ magic := REMOTE_COMMAND_MAGIC
       type := type
       payload_length := data.length
       payload := data }]

/-- One pipe-reader thread (`RemoteProcess::stdoutReader` /
`stderrReader`, lines 91–133): repeatedly `read` up to 4096 bytes into the
stack buffer; while the read returns more than zero bytes, take the stream
mutex and, when a stream socket is installed (`sock = true`), call
`sendStream`; a read of zero bytes (EOF) ends the thread.  The pipe is the
list of successive read results. -/
def readerLoop (type : Nat) (sock : Bool) : List (List Byte) → List StreamFrame
  | [] => []
  | chunk :: rest =>
    if chunk.length = 0 then []
    else (if sock then sendStream type chunk else []) ++ readerLoop type sock rest

/-- `RemoteProcess::stdoutReader`: forwards with `STREAM_OUTPUT`. -/
def stdoutReaderRun (sock : Bool) (pipe : List (List Byte)) : List StreamFrame :=
  readerLoop STREAM_OUTPUT sock pipe

/-- `RemoteProcess::stderrReader`: forwards with `STREAM_ERROR`. -/
def stderrReaderRun (sock : Bool) (pipe : List (List Byte)) : List StreamFrame :=
  readerLoop STREAM_ERROR sock pipe

/-! ## Instruction handlers
(`remote_command_server_command.cpp`, `CommandServer::handleCommand`) -/

/-- The per-session server state the dispatcher reads and writes. -/
structure ServerState where
  fs : FileSystem
  /-- `_current_directory`, stored exactly as `target.string()` stores it. -/
  cwd : FsPath
  proc : ProcState
deriving DecidableEq

/-- A one-byte boolean response (`sizeof(bool)` payload). -/
def boolResponse (instruction : Nat) (b : Bool) : Response :=
  { header := mkResponseHeader instruction 1
    payload := [if b then 1 else 0] }

/-- The `INSTRUCTION_MOVE_CURRENT_WORKING_DIRECTORY` case (lines 69–82):
resolve against the cwd; when the target exists and is a directory, store
`target.string()` (no canonicalization) and answer true, else leave the cwd
alone and answer false. -/
def moveCwd (fs : FileSystem) (cwd : FsPath) (p0 : List Byte) : FsPath × Bool :=
  let target := resolvePath cwd (parsePath p0)
  if existsAsDirectory fs target then (target, true) else (cwd, false)

/-- The `INSTRUCTION_REMOVE_DIRECTORY` case (lines 129–138):
`result = (fs::remove_all(target, ec) > 0) && !ec` (the model's `removeAll`
does not fault, so `!ec` holds). -/
def removeDirectory (fs : FileSystem) (cwd : FsPath) (p0 : List Byte) : FileSystem × Bool :=
  let r := removeAll fs (resolvePath cwd (parsePath p0)).normalize.comps
  (r.2, decide (0 < r.1))

/-- The `INSTRUCTION_CREATE_DIRECTORY` case (lines 118–127):
`result = fs::create_directories(target, ec)`. -/
def createDirectory (fs : FileSystem) (cwd : FsPath) (p0 : List Byte) : FileSystem × Bool :=
  createDirectories fs (resolvePath cwd (parsePath p0)).normalize.comps

/-- The `INSTRUCTION_COPY_DIRECTORY` case (lines 140–151):
`fs::copy(from, to, recursive, ec); result = !ec`.  A missing source sets
`ec`; otherwise the subtree is duplicated under the destination key (further
OS error conditions of `fs::copy` are outside the model). -/
def copyDirectory (fs : FileSystem) (cwd : FsPath) (p0 p1 : List Byte) : FileSystem × Bool :=
  let fromKey := (resolvePath cwd (parsePath p0)).normalize.comps
  let toKey := (resolvePath cwd (parsePath p1)).normalize.comps
  match fsLookup fs fromKey with
  | none => (fs, false)
  | some _ =>
    let copied := fs.filterMap fun kv =>
      if underKey fromKey kv.1 then some (toKey ++ kv.1.drop fromKey.length, kv.2)
      else none
    (copied.foldl (fun acc kv => fsInsert acc kv.1 kv.2) fs, true)

/-- The `INSTRUCTION_MOVE_DIRECTORY` case (lines 153–164):
`fs::rename(from, to, ec); result = !ec`.  A missing source sets `ec`;
otherwise the subtree is re-keyed under the destination. -/
def moveDirectory (fs : FileSystem) (cwd : FsPath) (p0 p1 : List Byte) : FileSystem × Bool :=
  let fromKey := (resolvePath cwd (parsePath p0)).normalize.comps
  let toKey := (resolvePath cwd (parsePath p1)).normalize.comps
  match fsLookup fs fromKey with
  | none => (fs, false)
  | some _ =>
    let moved := fs.filterMap fun kv =>
      if underKey fromKey kv.1 then some (toKey ++ kv.1.drop fromKey.length, kv.2)
      else none
    let rest := fs.filter fun kv => !underKey fromKey kv.1
    (moved.foldl (fun acc kv => fsInsert acc kv.1 kv.2) rest, true)

/-- One 132-byte `RemoteDirectoryContentInner` record: `type` (4 bytes LE)
then the name `snprintf`-truncated to 127 bytes and NUL-padded to 128. -/
def contentRecord (type : Nat) (name : List Byte) : List Byte :=
  encodeU32 type ++ (name.take 127 ++ List.replicate (128 - (name.take 127).length) 0)

/-- Immediate children of a directory key, in filesystem-model order
(`fs::directory_iterator` order is unspecified). -/
def dirChildren (fs : FileSystem) (key : FsKey) : List (List Byte × FsEntry) :=
  fs.filterMap fun kv =>
    if kv.1.length = key.length + 1 ∧ underKey key kv.1 = true then
      match kv.1.getLast? with
      | some name => some (name, kv.2)
      | none => none
    else none

/-- The `INSTRUCTION_LIST_DIRECTORY_CONTENTS` case (lines 95–116): an empty
`p0` lists `"."`; iteration errors are swallowed (`ec` variant, a missing
directory iterates nothing); every entry is a directory or a regular file in
the model, so none is skipped; the payload is the count then the records. -/
def listDirectoryContents (fs : FileSystem) (cwd : FsPath) (p0 : List Byte) : Response :=
  let arg := if p0.isEmpty then [46] else p0
  let key := (resolvePath cwd (parsePath arg)).normalize.comps
  let entries := dirChildren fs key
  let records := entries.map fun it =>
    contentRecord
      (match it.2 with
       | .dir => CONTENT_TYPE_DIRECTORY
       | .file _ => CONTENT_TYPE_FILE)
      it.1
  { header := mkResponseHeader INSTRUCTION_LIST_DIRECTORY_CONTENTS (4 + entries.length * 132)
    payload := encodeU32 entries.length ++ records.flatten }

/-- The `INSTRUCTION_UPLOAD_FILE` case (lines 201–218):
`fs::create_directories(target.parent_path(), ec)`, then open the target for
binary writing; when open, write `p1` (possibly empty) and answer
`!file.fail()` (the model's write does not fault); when not open, answer
false. -/
def uploadFile (fs : FileSystem) (cwd : FsPath) (p0 contents : List Byte) : FileSystem × Bool :=
  let key := (resolvePath cwd (parsePath p0)).normalize.comps
  let fs1 := (createDirectories fs key.dropLast).1
  if canOpenForWrite fs1 key then (fsInsert fs1 key (.file contents), true)
  else (fs1, false)

/-- The `INSTRUCTION_DOWNLOAD_FILE` case (lines 220–242): when the file does
not open, a single status byte 0 (`payload_length = 1`); when it opens, status
byte 1 followed by the file's bytes (`payload_length = 1 + size`). -/
def downloadFile (fs : FileSystem) (cwd : FsPath) (p0 : List Byte) : Response :=
  let key := (resolvePath cwd (parsePath p0)).normalize.comps
  match openForRead fs key with
  | none =>
    { header := mkResponseHeader INSTRUCTION_DOWNLOAD_FILE 1, payload := [0] }
  | some data =>
    { header := mkResponseHeader INSTRUCTION_DOWNLOAD_FILE (1 + data.length)
      payload := 1 :: data }

/-- The `INSTRUCTION_CLOSE_PROCESS` case (lines 187–199): `proc_id` starts at
`-1` and is overwritten by the first four payload bytes only when
`payload_0_length >= sizeof(int32_t)`; `RemoteProcess::close` runs only when
`proc_id != -1`; the response is always the empty-payload header. -/
def closeProcess (proc : ProcState) (p0 : List Byte) : ProcState × Response :=
  let procId : Int := if 4 ≤ p0.length then leI32 (p0.take 4) else -1
  ((if procId ≠ -1 then procClose proc else proc),
   { header := mkResponseHeader INSTRUCTION_CLOSE_PROCESS 0, payload := [] })

/-- Dispatch of one valid frame (`handleCommand`'s `switch`, lines 56–246).
Responses are listed in send order; an unrecognized instruction falls to
`default: break;`, sending nothing.  Spawning is modelled as succeeding
whenever attempted (the OS failure paths of `execute` return `-1` without a
child and do not affect the dispatched control flow proved here). -/
def handleOne (st : ServerState) (f : RequestFrame) : ServerState × List Response :=
  if f.instruction = INSTRUCTION_CURRENT_WORKING_DIRECTORY then
    (st, [{ header := mkResponseHeader f.instruction st.cwd.render.length
            payload := st.cwd.render }])
  else if f.instruction = INSTRUCTION_MOVE_CURRENT_WORKING_DIRECTORY then
    let r := moveCwd st.fs st.cwd f.p0
    ({ st with cwd := r.1 }, [boolResponse f.instruction r.2])
  else if f.instruction = INSTRUCTION_DIRECTORY_EXISTS then
    (st, [boolResponse f.instruction
          (existsAsDirectory st.fs (resolvePath st.cwd (parsePath f.p0)))])
  else if f.instruction = INSTRUCTION_LIST_DIRECTORY_CONTENTS then
    (st, [listDirectoryContents st.fs st.cwd f.p0])
  else if f.instruction = INSTRUCTION_CREATE_DIRECTORY then
    let r := createDirectory st.fs st.cwd f.p0
    ({ st with fs := r.1 }, [boolResponse f.instruction r.2])
  else if f.instruction = INSTRUCTION_REMOVE_DIRECTORY then
    let r := removeDirectory st.fs st.cwd f.p0
    ({ st with fs := r.1 }, [boolResponse f.instruction r.2])
  else if f.instruction = INSTRUCTION_COPY_DIRECTORY then
    let r := copyDirectory st.fs st.cwd f.p0 f.p1
    ({ st with fs := r.1 }, [boolResponse f.instruction r.2])
  else if f.instruction = INSTRUCTION_MOVE_DIRECTORY then
    let r := moveDirectory st.fs st.cwd f.p0 f.p1
    ({ st with fs := r.1 }, [boolResponse f.instruction r.2])
  else if f.instruction = INSTRUCTION_RUN_COMMAND then
    let r := procExecute true st.proc
    let proc2 := if r.1 ≠ -1 then procAwait r.2 else r.2
    ({ st with proc := proc2 },
     [{ header := mkResponseHeader f.instruction 0, payload := [] }])
  else if f.instruction = INSTRUCTION_OPEN_PROCESS then
    let r := procExecute true st.proc
    ({ st with proc := r.2 },
     [{ header := mkResponseHeader f.instruction 4, payload := encodeI32 r.1 }])
  else if f.instruction = INSTRUCTION_CLOSE_PROCESS then
    let r := closeProcess st.proc f.p0
    ({ st with proc := r.1 }, [r.2])
  else if f.instruction = INSTRUCTION_UPLOAD_FILE then
    let r := uploadFile st.fs st.cwd f.p0 f.p1
    ({ st with fs := r.1 }, [boolResponse f.instruction r.2])
  else if f.instruction = INSTRUCTION_DOWNLOAD_FILE then
    (st, [downloadFile st.fs st.cwd f.p0])
  else
    (st, [])

/-- The instruction codes the dispatcher's `switch` has a case for. -/
def knownInstruction (i : Nat) : Bool :=
  decide (i = INSTRUCTION_CURRENT_WORKING_DIRECTORY) ||
  decide (i = INSTRUCTION_MOVE_CURRENT_WORKING_DIRECTORY) ||
  decide (i = INSTRUCTION_DIRECTORY_EXISTS) ||
  decide (i = INSTRUCTION_LIST_DIRECTORY_CONTENTS) ||
  decide (i = INSTRUCTION_CREATE_DIRECTORY) ||
  decide (i = INSTRUCTION_REMOVE_DIRECTORY) ||
  decide (i = INSTRUCTION_COPY_DIRECTORY) ||
  decide (i = INSTRUCTION_MOVE_DIRECTORY) ||
  decide (i = INSTRUCTION_RUN_COMMAND) ||
  decide (i = INSTRUCTION_OPEN_PROCESS) ||
  decide (i = INSTRUCTION_CLOSE_PROCESS) ||
  decide (i = INSTRUCTION_UPLOAD_FILE) ||
  decide (i = INSTRUCTION_DOWNLOAD_FILE)

/-- `CommandServer::handleCommand` (lines 41–247): serve the connected client
frame by frame.  The input list is the sequence of fully received frames;
its end models `recvAll` failing (disconnect or shutdown-closed socket).  A
header whose `valid()` is false breaks out of the loop: nothing more is read
and no response is sent for that frame or any later one. -/
def handleCommand (st : ServerState) : List RequestFrame → ServerState × List Response
  | [] => (st, [])
  | f :: rest =>
    if f.valid then
      let r := handleOne st f
      let r2 := handleCommand r.1 rest
      (r2.1, r.2 ++ r2.2)
    else (st, [])

/-- The tail of one `CommandServer::handlerLoop` iteration (lines 254–281):
after `handleCommand` returns, any process left running is closed
(`if (_remote_process.is_running()) _remote_process.close(1);`) before the
client socket is closed and the next client is accepted. -/
def sessionCleanup (s : ProcState) : ProcState :=
  if s.is_running then procClose s else s

/-- One full `handlerLoop` iteration: serve a session's frames, then run the
post-session cleanup.  The resulting state is the one the next accepted
session starts from. -/
def handlerIteration (st : ServerState) (frames : List RequestFrame) : ServerState :=
  let r := handleCommand st frames
  { r.1 with proc := sessionCleanup r.1.proc }

/-- The spec's `canonical(cwd_before / p)` for the refinement comparison of
MOVE_CURRENT_WORKING_DIRECTORY: resolve `p` against the previous working
directory and canonicalize the result.  On the model's symlink-free,
`..`-free paths, `std::filesystem::canonical` reduces to dropping the `"."`
components. -/
def canonicalSpec (cwd : FsPath) (p : FsPath) : FsPath :=
  (resolvePath cwd p).normalize

/-! ## Helper lemmas -/

theorem fsLookup_fsInsert (fs : FileSystem) (key : FsKey) (e : FsEntry) :
    fsLookup (fsInsert fs key e) key = some e := by
  simp [fsInsert, fsLookup]

theorem underKey_refl (k : FsKey) : underKey k k = true := by
  induction k with
  | nil => rfl
  | cons a ra ih => simp [underKey, ih]

/-- An existing entry makes `remove_all` delete at least one entry. -/
theorem removeAll_pos_of_lookup (fs : FileSystem) (key : FsKey)
    (h : fsLookup fs key ≠ none) : 0 < (removeAll fs key).1 := by
  induction fs with
  | nil => simp [fsLookup] at h
  | cons kv rest ih =>
    obtain ⟨k, e⟩ := kv
    by_cases hk : k = key
    · subst hk
      simp [removeAll, List.filter, underKey_refl]
    · have h' : fsLookup rest key ≠ none := by
        simpa [fsLookup, hk] using h
      have := ih h'
      simp only [removeAll, List.filter] at this ⊢
      cases hu : underKey key k with
      | false => simpa [hu] using this
      | true => simp [hu]

theorem procInv_execute (s : ProcState) (ok : Bool) (h : ProcInv s) :
    ProcInv (procExecute ok s).2 := by
  rcases h with ⟨h1, h2, h3⟩ | ⟨h1, h2, h3⟩ <;> cases ok <;>
    simp [procExecute, ProcInv, h1, h2, h3]

theorem procInv_await (s : ProcState) (h : ProcInv s) :
    ProcInv (procAwait s) := by
  rcases h with ⟨h1, h2, h3⟩ | ⟨h1, h2, h3⟩ <;>
    simp [procAwait, ProcInv, h1, h2, h3]

theorem procInv_close (s : ProcState) (h : ProcInv s) :
    ProcInv (procClose s) := by
  rcases h with ⟨h1, h2, h3⟩ | ⟨h1, h2, h3⟩ <;>
    simp [procClose, ProcInv, h1, h2, h3]

theorem procInv_step (s : ProcState) (op : ProcOp) (h : ProcInv s) :
    ProcInv (procStep s op) := by
  cases op with
  | execute ok => exact procInv_execute s ok h
  | await => exact procInv_await s h
  | close => exact procInv_close s h

theorem procInv_run (s : ProcState) (ops : List ProcOp) (h : ProcInv s) :
    ProcInv (procRun s ops) := by
  induction ops generalizing s with
  | nil => exact h
  | cons op rest ih => exact ih _ (procInv_step s op h)

theorem procInv_init : ProcInv ProcState.init := by
  simp [ProcInv, ProcState.init]

theorem procInv_closeProcess (s : ProcState) (p0 : List Byte) (h : ProcInv s) :
    ProcInv (closeProcess s p0).1 := by
  by_cases hc : (if 4 ≤ p0.length then leI32 (p0.take 4) else -1) ≠ -1
  · simpa [closeProcess, hc] using procInv_close s h
  · simpa [closeProcess, hc] using h

set_option maxHeartbeats 1000000 in
theorem procInv_handleOne (st : ServerState) (f : RequestFrame)
    (h : ProcInv st.proc) : ProcInv (handleOne st f).1.proc := by
  by_cases h1 : f.instruction = INSTRUCTION_CURRENT_WORKING_DIRECTORY
  · rw [handleOne, if_pos h1]; exact h
  by_cases h2 : f.instruction = INSTRUCTION_MOVE_CURRENT_WORKING_DIRECTORY
  · rw [handleOne, if_neg h1, if_pos h2]; exact h
  by_cases h3 : f.instruction = INSTRUCTION_DIRECTORY_EXISTS
  · rw [handleOne, if_neg h1, if_neg h2, if_pos h3]; exact h
  by_cases h4 : f.instruction = INSTRUCTION_LIST_DIRECTORY_CONTENTS
  · rw [handleOne, if_neg h1, if_neg h2, if_neg h3, if_pos h4]; exact h
  by_cases h5 : f.instruction = INSTRUCTION_CREATE_DIRECTORY
  · rw [handleOne, if_neg h1, if_neg h2, if_neg h3, if_neg h4, if_pos h5]; exact h
  by_cases h6 : f.instruction = INSTRUCTION_REMOVE_DIRECTORY
  · rw [handleOne, if_neg h1, if_neg h2, if_neg h3, if_neg h4, if_neg h5, if_pos h6]
    exact h
  by_cases h7 : f.instruction = INSTRUCTION_COPY_DIRECTORY
  · rw [handleOne, if_neg h1, if_neg h2, if_neg h3, if_neg h4, if_neg h5, if_neg h6,
      if_pos h7]
    exact h
  by_cases h8 : f.instruction = INSTRUCTION_MOVE_DIRECTORY
  · rw [handleOne, if_neg h1, if_neg h2, if_neg h3, if_neg h4, if_neg h5, if_neg h6,
      if_neg h7, if_pos h8]
    exact h
  by_cases h9 : f.instruction = INSTRUCTION_RUN_COMMAND
  · rw [handleOne, if_neg h1, if_neg h2, if_neg h3, if_neg h4, if_neg h5, if_neg h6,
      if_neg h7, if_neg h8, if_pos h9]
    show ProcInv (if (procExecute true st.proc).1 ≠ -1 then
      procAwait (procExecute true st.proc).2 else (procExecute true st.proc).2)
    split
    · exact procInv_await _ (procInv_execute st.proc true h)
    · exact procInv_execute st.proc true h
  by_cases h10 : f.instruction = INSTRUCTION_OPEN_PROCESS
  · rw [handleOne, if_neg h1, if_neg h2, if_neg h3, if_neg h4, if_neg h5, if_neg h6,
      if_neg h7, if_neg h8, if_neg h9, if_pos h10]
    exact procInv_execute st.proc true h
  by_cases h11 : f.instruction = INSTRUCTION_CLOSE_PROCESS
  · rw [handleOne, if_neg h1, if_neg h2, if_neg h3, if_neg h4, if_neg h5, if_neg h6,
      if_neg h7, if_neg h8, if_neg h9, if_neg h10, if_pos h11]
    exact procInv_closeProcess st.proc f.p0 h
  by_cases h12 : f.instruction = INSTRUCTION_UPLOAD_FILE
  · rw [handleOne, if_neg h1, if_neg h2, if_neg h3, if_neg h4, if_neg h5, if_neg h6,
      if_neg h7, if_neg h8, if_neg h9, if_neg h10, if_neg h11, if_pos h12]
    exact h
  by_cases h13 : f.instruction = INSTRUCTION_DOWNLOAD_FILE
  · rw [handleOne, if_neg h1, if_neg h2, if_neg h3, if_neg h4, if_neg h5, if_neg h6,
      if_neg h7, if_neg h8, if_neg h9, if_neg h10, if_neg h11, if_neg h12, if_pos h13]
    exact h
  · rw [handleOne, if_neg h1, if_neg h2, if_neg h3, if_neg h4, if_neg h5, if_neg h6,
      if_neg h7, if_neg h8, if_neg h9, if_neg h10, if_neg h11, if_neg h12, if_neg h13]
    exact h

theorem procInv_handleCommand (st : ServerState) (frames : List RequestFrame)
    (h : ProcInv st.proc) : ProcInv (handleCommand st frames).1.proc := by
  induction frames generalizing st with
  | nil => exact h
  | cons f rest ih =>
    simp only [handleCommand]
    split
    · exact ih (handleOne st f).1 (procInv_handleOne st f h)
    · exact h

/-- A frame whose instruction has no `switch` case reaches `default: break;`:
the state is untouched and nothing is sent. -/
theorem handleOne_unknown (st : ServerState) (f : RequestFrame)
    (h : knownInstruction f.instruction = false) : handleOne st f = (st, []) := by
  have h1 : f.instruction ≠ INSTRUCTION_CURRENT_WORKING_DIRECTORY := fun hh => by
    simp [knownInstruction, hh] at h
  have h2 : f.instruction ≠ INSTRUCTION_MOVE_CURRENT_WORKING_DIRECTORY := fun hh => by
    simp [knownInstruction, hh] at h
  have h3 : f.instruction ≠ INSTRUCTION_DIRECTORY_EXISTS := fun hh => by
    simp [knownInstruction, hh] at h
  have h4 : f.instruction ≠ INSTRUCTION_LIST_DIRECTORY_CONTENTS := fun hh => by
    simp [knownInstruction, hh] at h
  have h5 : f.instruction ≠ INSTRUCTION_CREATE_DIRECTORY := fun hh => by
    simp [knownInstruction, hh] at h
  have h6 : f.instruction ≠ INSTRUCTION_REMOVE_DIRECTORY := fun hh => by
    simp [knownInstruction, hh] at h
  have h7 : f.instruction ≠ INSTRUCTION_COPY_DIRECTORY := fun hh => by
    simp [knownInstruction, hh] at h
  have h8 : f.instruction ≠ INSTRUCTION_MOVE_DIRECTORY := fun hh => by
    simp [knownInstruction, hh] at h
  have h9 : f.instruction ≠ INSTRUCTION_RUN_COMMAND := fun hh => by
    simp [knownInstruction, hh] at h
  have h10 : f.instruction ≠ INSTRUCTION_OPEN_PROCESS := fun hh => by
    simp [knownInstruction, hh] at h
  have h11 : f.instruction ≠ INSTRUCTION_CLOSE_PROCESS := fun hh => by
    simp [knownInstruction, hh] at h
  have h12 : f.instruction ≠ INSTRUCTION_UPLOAD_FILE := fun hh => by
    simp [knownInstruction, hh] at h
  have h13 : f.instruction ≠ INSTRUCTION_DOWNLOAD_FILE := fun hh => by
    simp [knownInstruction, hh] at h
  rw [handleOne, if_neg h1, if_neg h2, if_neg h3, if_neg h4, if_neg h5, if_neg h6,
    if_neg h7, if_neg h8, if_neg h9, if_neg h10, if_neg h11, if_neg h12, if_neg h13]

/-! ## The claims -/

/-- C1 (amended): a received frame whose magic is not `"RMT_"` makes the
dispatcher loop exit: no response is sent for it nor for anything after it.
A frame with a good magic but an instruction the dispatcher does not know
elicits no response either, but the session stays open: subsequent frames
are served exactly as if the unknown frame had not been sent. -/
theorem claim_C1_framing_errors :
    (∀ (st : ServerState) (f : RequestFrame) (rest : List RequestFrame),
      f.valid = false → handleCommand st (f :: rest) = (st, [])) ∧
    (∀ (st : ServerState) (f : RequestFrame) (rest : List RequestFrame),
      f.valid = true → knownInstruction f.instruction = false →
        handleCommand st (f :: rest) = handleCommand st rest) := by
  constructor
  · intro st f rest h
    simp [handleCommand, h]
  · intro st f rest hv hunk
    simp only [handleCommand, hv, if_true]
    rw [handleOne_unknown st f hunk]
    simp

/-- Witness for C1: concrete instances of both parts of the amended claim. -/
theorem claim_C1_framing_errors_witness :
    handleCommand { fs := [], cwd := ⟨true, []⟩, proc := ProcState.init }
        [{ magic := [0, 0, 0, 0], instruction := INSTRUCTION_CURRENT_WORKING_DIRECTORY,
           p0 := [], p1 := [], p2 := [], p3 := [] }]
      = ({ fs := [], cwd := ⟨true, []⟩, proc := ProcState.init }, []) :=
  claim_C1_framing_errors.1 _ _ _ (by decide)

/-- Counterexample to C1 as stated: after a frame with a good magic and the
unknown instruction `0x999`, the claim says the session is closed and no
response is ever sent, yet the next frame (CURRENT_WORKING_DIRECTORY) is
still answered with the cwd `"/a"`. -/
theorem claim_C1_counterexample :
    (handleCommand { fs := [], cwd := ⟨true, [[97]]⟩, proc := ProcState.init }
        [{ magic := REMOTE_COMMAND_MAGIC, instruction := 0x999,
           p0 := [], p1 := [], p2 := [], p3 := [] },
         { magic := REMOTE_COMMAND_MAGIC,
           instruction := INSTRUCTION_CURRENT_WORKING_DIRECTORY,
           p0 := [], p1 := [], p2 := [], p3 := [] }]).2
      = [{ header := mkResponseHeader INSTRUCTION_CURRENT_WORKING_DIRECTORY 2
           payload := [47, 97] }] := by
  decide

/-- C2: across any sequence of supervisor calls from the initial state at
most one child process is alive; `execute` rejects with `-1` and spawns
nothing when a process is already live (`current_process_id ≠ -1`), and
never idles a live supervisor; `await` and `close` are the operations that
return it to idle (`current_process_id = -1`), with both reader threads
joined (`readers = false`) and the child reaped (no live child remains). -/
theorem claim_C2_single_child :
    (∀ ops : List ProcOp, (procRun ProcState.init ops).children ≤ 1) ∧
    (∀ (s : ProcState) (ok : Bool), s.current_process_id ≠ -1 →
      procExecute ok s = (-1, s)) ∧
    (∀ (s : ProcState) (ok : Bool), s.current_process_id ≠ -1 →
      (procExecute ok s).2.current_process_id ≠ -1) ∧
    (∀ s : ProcState, (procAwait s).current_process_id = -1 ∧
      (procAwait s).readers = false ∧
      (ProcInv s → (procAwait s).children = 0)) ∧
    (∀ s : ProcState, (procClose s).current_process_id = -1 ∧
      (procClose s).readers = false ∧
      (ProcInv s → (procClose s).children = 0)) := by
  refine ⟨?_, ?_, ?_, ?_, ?_⟩
  · intro ops
    rcases procInv_run ProcState.init ops procInv_init with ⟨_, hc, _⟩ | ⟨_, hc, _⟩ <;>
      simp [hc]
  · intro s ok h
    simp [procExecute, h]
  · intro s ok h
    simp [procExecute, h]
  · intro s
    refine ⟨rfl, rfl, ?_⟩
    rintro (⟨_, hc, _⟩ | ⟨_, hc, _⟩) <;> simp [procAwait, hc]
  · intro s
    refine ⟨rfl, rfl, ?_⟩
    rintro (⟨_, hc, _⟩ | ⟨_, hc, _⟩) <;> simp [procClose, hc]

/-- Witness for C2: a live supervisor (one child, readers running) makes
`execute` return `-1` without spawning, and `close` idles it. -/
theorem claim_C2_single_child_witness :
    procExecute true { current_process_id := 1, children := 1, readers := true }
        = (-1, { current_process_id := 1, children := 1, readers := true }) ∧
      (procClose { current_process_id := 1, children := 1, readers := true }).children = 0 :=
  ⟨claim_C2_single_child.2.1 _ true (by decide),
   (claim_C2_single_child.2.2.2.2 _).2.2 (Or.inr (by decide))⟩

/-- C3 (amended): when MOVE_CURRENT_WORKING_DIRECTORY(p) responds with
success, the session cwd becomes the resolved-but-uncanonicalized
`cwd_before / p` (or `p` itself when absolute), and a
CURRENT_WORKING_DIRECTORY request issued immediately afterwards returns
exactly that string — no canonicalization is applied to it. -/
theorem claim_C3_move_cwd_uncanonicalized :
    ∀ (st : ServerState) (p0 : List Byte),
      existsAsDirectory st.fs (resolvePath st.cwd (parsePath p0)) = true →
      (handleOne st
          { magic := REMOTE_COMMAND_MAGIC
            instruction := INSTRUCTION_MOVE_CURRENT_WORKING_DIRECTORY
            p0 := p0, p1 := [], p2 := [], p3 := [] }
        = ({ st with cwd := resolvePath st.cwd (parsePath p0) },
           [boolResponse INSTRUCTION_MOVE_CURRENT_WORKING_DIRECTORY true])) ∧
      ((handleOne { st with cwd := resolvePath st.cwd (parsePath p0) }
          { magic := REMOTE_COMMAND_MAGIC
            instruction := INSTRUCTION_CURRENT_WORKING_DIRECTORY
            p0 := [], p1 := [], p2 := [], p3 := [] }).2
        = [{ header := mkResponseHeader INSTRUCTION_CURRENT_WORKING_DIRECTORY
               (resolvePath st.cwd (parsePath p0)).render.length
             payload := (resolvePath st.cwd (parsePath p0)).render }]) := by
  intro st p0 hex
  constructor
  · simp [handleOne, moveCwd, hex, INSTRUCTION_MOVE_CURRENT_WORKING_DIRECTORY,
      INSTRUCTION_CURRENT_WORKING_DIRECTORY]
  · simp [handleOne]

/-- Witness for C3 (amended): moving into the existing directory `"a"` from
the root: the stored cwd is `"/a"` and CWD reports it. -/
theorem claim_C3_move_cwd_uncanonicalized_witness :
    handleOne { fs := [([[97]], FsEntry.dir)], cwd := ⟨true, []⟩, proc := ProcState.init }
        { magic := REMOTE_COMMAND_MAGIC
          instruction := INSTRUCTION_MOVE_CURRENT_WORKING_DIRECTORY
          p0 := [97], p1 := [], p2 := [], p3 := [] }
      = ({ fs := [([[97]], FsEntry.dir)], cwd := ⟨true, [[97]]⟩, proc := ProcState.init },
         [boolResponse INSTRUCTION_MOVE_CURRENT_WORKING_DIRECTORY true]) :=
  (claim_C3_move_cwd_uncanonicalized _ [97] (by decide)).1

/-- Counterexample to C3 as stated: with the directory `"/a"` present and the
cwd at the root, MOVE_CURRENT_WORKING_DIRECTORY("a/.") succeeds, and the
following CURRENT_WORKING_DIRECTORY returns `"/a/."` (bytes
`[47, 97, 47, 46]`), not `canonical(cwd_before / "a/.") = "/a"`. -/
theorem claim_C3_counterexample :
    ((handleOne { fs := [([[97]], FsEntry.dir)], cwd := ⟨true, []⟩, proc := ProcState.init }
        { magic := REMOTE_COMMAND_MAGIC
          instruction := INSTRUCTION_MOVE_CURRENT_WORKING_DIRECTORY
          p0 := [97, 47, 46], p1 := [], p2 := [], p3 := [] }).2
      = [boolResponse INSTRUCTION_MOVE_CURRENT_WORKING_DIRECTORY true]) ∧
    ((handleOne
        (handleOne { fs := [([[97]], FsEntry.dir)], cwd := ⟨true, []⟩, proc := ProcState.init }
          { magic := REMOTE_COMMAND_MAGIC
            instruction := INSTRUCTION_MOVE_CURRENT_WORKING_DIRECTORY
            p0 := [97, 47, 46], p1 := [], p2 := [], p3 := [] }).1
        { magic := REMOTE_COMMAND_MAGIC
          instruction := INSTRUCTION_CURRENT_WORKING_DIRECTORY
          p0 := [], p1 := [], p2 := [], p3 := [] }).2
      = [{ header := mkResponseHeader INSTRUCTION_CURRENT_WORKING_DIRECTORY 4
           payload := [47, 97, 47, 46] }]) ∧
    [47, 97, 47, 46] ≠ (canonicalSpec ⟨true, []⟩ (parsePath [97, 47, 46])).render := by
  refine ⟨by decide, by decide, by decide⟩

/-- C4: whenever UPLOAD_FILE(path, b) responds with success, a subsequent
DOWNLOAD_FILE(path) on the resulting filesystem (no intervening writes)
responds with status byte 1 followed by exactly the bytes b — for every byte
sequence b, the empty one included. -/
theorem claim_C4_upload_download_roundtrip :
    ∀ (fs : FileSystem) (cwd : FsPath) (p0 b : List Byte),
      (uploadFile fs cwd p0 b).2 = true →
      downloadFile (uploadFile fs cwd p0 b).1 cwd p0
        = { header := mkResponseHeader INSTRUCTION_DOWNLOAD_FILE (1 + b.length)
            payload := 1 :: b } := by
  intro fs cwd p0 b h
  by_cases hw : canOpenForWrite
      (createDirectories fs ((resolvePath cwd (parsePath p0)).normalize.comps).dropLast).1
      ((resolvePath cwd (parsePath p0)).normalize.comps)
  · simp [uploadFile, hw, downloadFile, openForRead, fsLookup_fsInsert]
  · simp [uploadFile, hw] at h

/-- Witness for C4: uploading the empty byte sequence to `"f"` (byte 102) on
an empty filesystem succeeds, and downloading it returns the status byte 1
alone. -/
theorem claim_C4_upload_download_roundtrip_witness :
    (uploadFile [] ⟨true, []⟩ [102] []).2 = true ∧
      downloadFile (uploadFile [] ⟨true, []⟩ [102] []).1 ⟨true, []⟩ [102]
        = { header := mkResponseHeader INSTRUCTION_DOWNLOAD_FILE 1, payload := [1] } :=
  ⟨by decide, claim_C4_upload_download_roundtrip [] ⟨true, []⟩ [102] [] (by decide)⟩

/-- C5 (amended): REMOVE_DIRECTORY responds true iff `fs::remove_all`
deleted at least one entry (the model records no error); an existing
directory counts its own entry among the deleted ones, so an existing empty
directory responds true, and only a target under which nothing exists
responds false. -/
theorem claim_C5_remove_directory :
    ∀ (fs : FileSystem) (cwd : FsPath) (p0 : List Byte),
      ((removeDirectory fs cwd p0).2 = true ↔
        0 < (removeAll fs (resolvePath cwd (parsePath p0)).normalize.comps).1) ∧
      (fsLookup fs (resolvePath cwd (parsePath p0)).normalize.comps ≠ none →
        (removeDirectory fs cwd p0).2 = true) ∧
      ((∀ kv ∈ fs, underKey (resolvePath cwd (parsePath p0)).normalize.comps kv.1 = false) →
        (removeDirectory fs cwd p0).2 = false) := by
  intro fs cwd p0
  refine ⟨by simp [removeDirectory], ?_, ?_⟩
  · intro h
    simpa [removeDirectory] using
      removeAll_pos_of_lookup fs (resolvePath cwd (parsePath p0)).normalize.comps h
  · intro h
    have hnil : fs.filter
        (fun kv => underKey (resolvePath cwd (parsePath p0)).normalize.comps kv.1) = [] :=
      List.filter_eq_nil_iff.2 (fun kv hm => by simp [h kv hm])
    simp [removeDirectory, removeAll, hnil]

/-- Witness for C5 (amended): removing the existing directory `"a"` (which
holds one file) responds true. -/
theorem claim_C5_remove_directory_witness :
    (removeDirectory [([[97]], FsEntry.dir), ([[97], [98]], FsEntry.file [7])]
        ⟨true, []⟩ [97]).2 = true :=
  (claim_C5_remove_directory
      [([[97]], FsEntry.dir), ([[97], [98]], FsEntry.file [7])]
      ⟨true, []⟩ [97]).2.1 (by decide)

/-- Counterexample to C5 as stated: the filesystem holds exactly one entry,
the empty directory `"/a"`; the claim says REMOVE_DIRECTORY("a") responds
false, but `fs::remove_all` deletes the directory itself (one entry), so the
response is true. -/
theorem claim_C5_counterexample :
    (removeDirectory [([[97]], FsEntry.dir)] ⟨true, []⟩ [97]).2 = true := by
  decide

/-- C6: when the resolved target of MOVE_CURRENT_WORKING_DIRECTORY does not
name an existing directory, the response is false and the whole session
state — the cwd in particular — is exactly what it was before. -/
theorem claim_C6_move_cwd_failure :
    ∀ (st : ServerState) (p0 p1 p2 p3 : List Byte),
      existsAsDirectory st.fs (resolvePath st.cwd (parsePath p0)) = false →
      handleOne st
          { magic := REMOTE_COMMAND_MAGIC
            instruction := INSTRUCTION_MOVE_CURRENT_WORKING_DIRECTORY
            p0 := p0, p1 := p1, p2 := p2, p3 := p3 }
        = (st, [boolResponse INSTRUCTION_MOVE_CURRENT_WORKING_DIRECTORY false]) := by
  intro st p0 p1 p2 p3 h
  simp [handleOne, moveCwd, h, INSTRUCTION_MOVE_CURRENT_WORKING_DIRECTORY,
    INSTRUCTION_CURRENT_WORKING_DIRECTORY]

/-- Witness for C6: moving to `"a"` on an empty filesystem fails and leaves
the state untouched. -/
theorem claim_C6_move_cwd_failure_witness :
    handleOne { fs := [], cwd := ⟨true, []⟩, proc := ProcState.init }
        { magic := REMOTE_COMMAND_MAGIC
          instruction := INSTRUCTION_MOVE_CURRENT_WORKING_DIRECTORY
          p0 := [97], p1 := [], p2 := [], p3 := [] }
      = ({ fs := [], cwd := ⟨true, []⟩, proc := ProcState.init },
         [boolResponse INSTRUCTION_MOVE_CURRENT_WORKING_DIRECTORY false]) :=
  claim_C6_move_cwd_failure _ [97] [] [] [] (by decide)

/-- C7: DOWNLOAD_FILE's status byte is 0 exactly when the file does not
open; in that case the response payload is exactly the one byte 0
(`payload_length = 1`); when the file opens with contents `data`, the
response is the status byte 1 followed by `data`
(`payload_length = 1 + |data|`). -/
theorem claim_C7_download_status :
    ∀ (fs : FileSystem) (cwd : FsPath) (p0 : List Byte),
      ((downloadFile fs cwd p0).payload.head? = some 0 ↔
        openForRead fs (resolvePath cwd (parsePath p0)).normalize.comps = none) ∧
      (openForRead fs (resolvePath cwd (parsePath p0)).normalize.comps = none →
        downloadFile fs cwd p0
          = { header := mkResponseHeader INSTRUCTION_DOWNLOAD_FILE 1
              payload := [0] }) ∧
      (∀ data, openForRead fs (resolvePath cwd (parsePath p0)).normalize.comps = some data →
        downloadFile fs cwd p0
          = { header := mkResponseHeader INSTRUCTION_DOWNLOAD_FILE (1 + data.length)
              payload := 1 :: data }) := by
  intro fs cwd p0
  rcases ho : openForRead fs (resolvePath cwd (parsePath p0)).normalize.comps with _ | data
  · exact ⟨by simp [downloadFile, ho], fun _ => by simp [downloadFile, ho],
      fun d hd => by simp [ho] at hd⟩
  · exact ⟨by simp [downloadFile, ho], fun hn => by simp [ho] at hn,
      fun d hd => by
        cases hd
        simp [downloadFile, ho]⟩

/-- Witness for C7: downloading `"f"` from an empty filesystem yields the
single-byte failure response. -/
theorem claim_C7_download_status_witness :
    downloadFile [] ⟨true, []⟩ [102]
      = { header := mkResponseHeader INSTRUCTION_DOWNLOAD_FILE 1, payload := [0] } :=
  (claim_C7_download_status [] ⟨true, []⟩ [102]).2.1 (by decide)

/-- Every frame a reader thread emits carries its stream type and between 1
and 4096 payload bytes, given that each pipe read fills at most the 4096-byte
buffer. -/
theorem readerLoop_frames (t : Nat) (sock : Bool) (pipe : List (List Byte))
    (hp : ∀ c ∈ pipe, c.length ≤ 4096) :
    ∀ fr ∈ readerLoop t sock pipe,
      fr.type = t ∧ 1 ≤ fr.payload_length ∧ fr.payload_length ≤ 4096 := by
  induction pipe with
  | nil => intro fr hf; simp [readerLoop] at hf
  | cons c rest ih =>
    intro fr hf
    by_cases hc : c.length = 0
    · simp [readerLoop, hc] at hf
    · simp only [readerLoop, hc, if_false] at hf
      rcases List.mem_append.1 hf with hl | hr
      · cases sock with
        | false => simp at hl
        | true =>
          simp only [if_true, sendStream, hc, if_false, List.mem_singleton] at hl
          subst hl
          exact ⟨rfl, Nat.one_le_iff_ne_zero.mpr hc, hp c (List.mem_cons_self c rest)⟩
      · exact ih (fun d hm => hp d (List.mem_cons_of_mem _ hm)) fr hr

/-- C8: every frame emitted on the stream channel comes from a reader thread
whose read returned between 1 and 4096 bytes, so its type is STREAM_OUTPUT
(stdout reader) or STREAM_ERROR (stderr reader) and its payload length n
satisfies 1 ≤ n ≤ 4096; `sendStream` with length 0 emits nothing, so an
empty stream frame is never sent. -/
theorem claim_C8_stream_frames :
    (∀ (sock : Bool) (pipe : List (List Byte)),
      (∀ c ∈ pipe, c.length ≤ 4096) →
      ∀ fr ∈ stdoutReaderRun sock pipe,
        fr.type = STREAM_OUTPUT ∧ 1 ≤ fr.payload_length ∧ fr.payload_length ≤ 4096) ∧
    (∀ (sock : Bool) (pipe : List (List Byte)),
      (∀ c ∈ pipe, c.length ≤ 4096) →
      ∀ fr ∈ stderrReaderRun sock pipe,
        fr.type = STREAM_ERROR ∧ 1 ≤ fr.payload_length ∧ fr.payload_length ≤ 4096) ∧
    (∀ type : Nat, sendStream type [] = []) :=
  ⟨fun sock pipe hp => readerLoop_frames STREAM_OUTPUT sock pipe hp,
   fun sock pipe hp => readerLoop_frames STREAM_ERROR sock pipe hp,
   fun _ => rfl⟩

/-- Witness for C8: a stdout reader over one 2-byte chunk emits exactly one
STREAM_OUTPUT frame of length 2 within bounds. -/
theorem claim_C8_stream_frames_witness :
    ∀ fr ∈ stdoutReaderRun true [[5, 6]],
      fr.type = STREAM_OUTPUT ∧ 1 ≤ fr.payload_length ∧ fr.payload_length ≤ 4096 :=
  claim_C8_stream_frames.1 true [[5, 6]] (by decide)

/-- C9: a CLOSE_PROCESS request whose payload is shorter than 4 bytes, or
whose 4-byte little-endian token is `-1`, terminates no process and leaves
the whole server state unchanged, yet the empty response header is still
sent: the operation acknowledges without doing anything. -/
theorem claim_C9_close_process_noop :
    ∀ (st : ServerState) (p0 p1 p2 p3 : List Byte),
      p0.length < 4 ∨ leI32 (p0.take 4) = -1 →
      handleOne st
          { magic := REMOTE_COMMAND_MAGIC
            instruction := INSTRUCTION_CLOSE_PROCESS
            p0 := p0, p1 := p1, p2 := p2, p3 := p3 }
        = (st, [{ header := mkResponseHeader INSTRUCTION_CLOSE_PROCESS 0
                  payload := [] }]) := by
  intro st p0 p1 p2 p3 h
  have hid : (if 4 ≤ p0.length then leI32 (p0.take 4) else -1) = -1 := by
    rcases h with h | h
    · rw [if_neg (by omega)]
    · split
      · exact h
      · rfl
  simp [handleOne, closeProcess, hid, INSTRUCTION_CURRENT_WORKING_DIRECTORY,
    INSTRUCTION_MOVE_CURRENT_WORKING_DIRECTORY, INSTRUCTION_DIRECTORY_EXISTS,
    INSTRUCTION_LIST_DIRECTORY_CONTENTS, INSTRUCTION_CREATE_DIRECTORY,
    INSTRUCTION_REMOVE_DIRECTORY, INSTRUCTION_COPY_DIRECTORY,
    INSTRUCTION_MOVE_DIRECTORY, INSTRUCTION_RUN_COMMAND, INSTRUCTION_OPEN_PROCESS,
    INSTRUCTION_CLOSE_PROCESS, INSTRUCTION_UPLOAD_FILE, INSTRUCTION_DOWNLOAD_FILE]

/-- Witness for C9: an empty CLOSE_PROCESS payload is acknowledged without
touching a live supervisor. -/
theorem claim_C9_close_process_noop_witness :
    handleOne
        { fs := [], cwd := ⟨true, []⟩
          proc := { current_process_id := 1, children := 1, readers := true } }
        { magic := REMOTE_COMMAND_MAGIC
          instruction := INSTRUCTION_CLOSE_PROCESS
          p0 := [], p1 := [], p2 := [], p3 := [] }
      = ({ fs := [], cwd := ⟨true, []⟩
           proc := { current_process_id := 1, children := 1, readers := true } },
         [{ header := mkResponseHeader INSTRUCTION_CLOSE_PROCESS 0, payload := [] }]) :=
  claim_C9_close_process_noop _ [] [] [] [] (Or.inl (by decide))

/-- C10: whatever frames a session served, once its dispatcher loop exits
the `handlerLoop` cleanup (`if (_remote_process.is_running()) close(1);`)
runs before the client socket is closed and the next client accepted; the
state handed to the next session therefore has no live child
(`current_process_id = -1`, zero children) and both reader threads joined. -/
theorem claim_C10_no_live_child_across_sessions :
    ∀ (st : ServerState) (frames : List RequestFrame),
      ProcInv st.proc →
      (handlerIteration st frames).proc.current_process_id = -1 ∧
      (handlerIteration st frames).proc.children = 0 ∧
      (handlerIteration st frames).proc.readers = false := by
  intro st frames h
  rcases procInv_handleCommand st frames h with ⟨h1, h2, h3⟩ | ⟨h1, h2, h3⟩
  · simp [handlerIteration, sessionCleanup, ProcState.is_running, h1, h2, h3]
  · simp [handlerIteration, sessionCleanup, ProcState.is_running, h1, h2, h3, procClose]

/-- Witness for C10: a session that spawns a child via OPEN_PROCESS and then
disconnects hands an idle supervisor to the next session. -/
theorem claim_C10_no_live_child_across_sessions_witness :
    (handlerIteration { fs := [], cwd := ⟨true, []⟩, proc := ProcState.init }
        [{ magic := REMOTE_COMMAND_MAGIC
           instruction := INSTRUCTION_OPEN_PROCESS
           p0 := [108, 115], p1 := [], p2 := [], p3 := [] }]).proc.current_process_id
        = -1 ∧
      (handlerIteration { fs := [], cwd := ⟨true, []⟩, proc := ProcState.init }
        [{ magic := REMOTE_COMMAND_MAGIC
           instruction := INSTRUCTION_OPEN_PROCESS
           p0 := [108, 115], p1 := [], p2 := [], p3 := [] }]).proc.children = 0 :=
  ⟨(claim_C10_no_live_child_across_sessions _ _ procInv_init).1,
   (claim_C10_no_live_child_across_sessions _ _ procInv_init).2.1⟩

end RemoteCommand
